import Mathlib

/-
Verification of the apprise notification plugins (PagerDuty, Kodi/XBMC, Zulip)
against their natural-language specification.

The three plugin modules under src/apprise/plugins are embedded shallowly:
adapters become structures, constructors become Option-valued functions
(none = construction error, mirroring the raised TypeError), payload builders
become pure functions, and the HTTP transport becomes an explicit oracle value
(an HTTP status code or a requests exception).  Helpers that live outside the
provided sources (apprise.utils.parse, NotifyBase.parse_url, the URL
percent-encoding layer) are modelled from the specification; each such
definition carries a doc comment starting with: Modelled from the spec.
-/

/-- Modelled from the spec: the generic four-level notification classification
(info, success, warning, failure) defined by apprise.common.NotifyType, which
is not among the provided sources. -/
inductive NotifyType where
  | info
  | success
  | warning
  | failure
deriving DecidableEq, Repr

/-- Outcome of one HTTP POST made through the external requests collaborator:
either a response bearing a status code, or a transport-level error
(requests.RequestException, covering DNS, connect and timeout failures). -/
inductive HttpResult where
  | response (code : Nat)
  | exception
deriving DecidableEq, Repr

/-- Lowercasing of a string, character by character, used wherever the Python
code calls the lower method. -/
def strLower (s : String) : String :=
  String.mk (s.toList.map Char.toLower)

/-- Python style truthiness of an optional string: None and the empty string
are falsy, every other string is truthy. -/
def truthyOpt : Option String → Bool
  | none => false
  | some s => if s = "" then false else true

/-- True when the string contains at least one non-whitespace character, that
is, when the string is non-empty after trimming. -/
def hasNonWs (s : String) : Bool :=
  s.toList.any (fun c => !c.isWhitespace)

/-- Modelled from the spec: apprise.utils.parse.validate_regex with its
default pattern, as used for the PagerDuty api key, routing key, source and
component.  The specification only requires these fields to be non-empty
after trimming, so the model accepts exactly the strings containing a
non-whitespace character and returns the value unchanged; None is rejected. -/
def validate_regex_d : Option String → Option String
  | none => none
  | some s => if hasNonWs s then some s else none

/-- Modelled from the spec: apprise.utils.parse.parse_bool.  Recognised true
and false words select the boolean, anything else yields the supplied
default. -/
def parse_bool (s : String) (dflt : Bool) : Bool :=
  if ["yes", "y", "true", "t", "on", "1", "enable", "enabled"].contains (strLower s) then
    true
  else if ["no", "n", "false", "f", "off", "0", "disable", "disabled"].contains (strLower s) then
    false
  else
    dflt

/-- Splits a character list into groups at the given delimiter characters;
delimiters separate groups and empty groups are kept. -/
def splitByDelims (delims : List Char) (l : List Char) : List (List Char) :=
  l.foldr
    (fun c acc =>
      if delims.contains c then [] :: acc
      else
        match acc with
        | [] => [[c]]
        | g :: rest => (c :: g) :: rest)
    [[]]

/-- Modelled from the spec: apprise.utils.parse.is_email, used by the Zulip
plugin to decide between a private and a stream message.  A target parses as
an email when it has the shape local at domain with a non-empty local part
and a domain containing a dot; the full_email result is the target itself. -/
def is_email (s : String) : Option String :=
  match splitByDelims ['@'] s.toList with
  | [l, d] =>
    if l.isEmpty || d.isEmpty || !(d.any (fun c => c == '.')) then none
    else some s
  | _ => none

/-
PagerDuty plugin (src/apprise/plugins/pagerduty.py).
-/

/-- The PagerDuty severity names, in the order the tuple PAGERDUTY_SEVERITIES
lays them out in the source: info, warning, critical, error. -/
def PAGERDUTY_SEVERITIES : List String :=
  ["info", "warning", "critical", "error"]

/-- The fixed map from the generic notify type to the PagerDuty severity
(PAGERDUTY_SEVERITY_MAP in the source). -/
def PAGERDUTY_SEVERITY_MAP : NotifyType → String
  | NotifyType.info => "info"
  | NotifyType.success => "info"
  | NotifyType.warning => "warning"
  | NotifyType.failure => "critical"

/-- The known PagerDuty regions (PAGERDUTY_REGIONS in the source). -/
def PAGERDUTY_REGIONS : List String := ["us", "eu"]

/-- The default region used when none is specified (NotifyPagerDuty
default_region). -/
def pagerduty_default_region : String := "us"

/-- A constructed PagerDuty adapter: the fields NotifyPagerDuty stores on
self during a successful init. -/
structure PagerDuty where
  apikey : String
  integration_key : String
  source : String
  component : String
  region_name : String
  severity : Option String
  click : Option String
  class_id : Option String
  group : Option String
  details : List (String × String)
  include_image : Bool
deriving DecidableEq, Repr

/-- The keyword arguments accepted by NotifyPagerDuty init. -/
structure PagerDutyInit where
  apikey : Option String
  integrationkey : Option String
  source : Option String
  component : Option String
  group : Option String
  class_id : Option String
  include_image : Bool
  click : Option String
  details : List (String × String)
  region_name : Option String
  severity : Option String
deriving Repr

/-- Resolution of the optional source argument: a falsy source (None or the
empty string) falls back to the template default Apprise, otherwise the value
passes through validate_regex and an invalid value is a construction error. -/
def sourceOf : Option String → Option String
  | none => some "Apprise"
  | some s => if s = "" then some "Apprise" else validate_regex_d (some s)

/-- Resolution of the optional component argument, defaulting to
Notification, in the same shape as sourceOf. -/
def componentOf : Option String → Option String
  | none => some "Notification"
  | some s => if s = "" then some "Notification" else validate_regex_d (some s)

/-- Resolution of the region argument: None selects the default region us,
otherwise the value is lowercased; a result outside PAGERDUTY_REGIONS is a
construction error. -/
def regionOf (o : Option String) : Option String :=
  let r := match o with
    | none => pagerduty_default_region
    | some s => strLower s
  if PAGERDUTY_REGIONS.contains r then some r else none

/-- The severity candidate test from the init: the candidate is lowercased
and the supplied string must be a prefix of it (str(s).lower().startswith
(severity) in the source); the supplied string itself is not lowercased. -/
def sevMatch (s cand : String) : Bool :=
  s.toList.isPrefixOf (strLower cand).toList

/-- Resolution of the severity argument: None stores no override; otherwise
the first member of PAGERDUTY_SEVERITIES that the supplied string prefix
matches is stored, and no match is a construction error (the next call with
the False sentinel in the source). -/
def sevOf : Option String → Option (Option String)
  | none => some none
  | some s =>
    match PAGERDUTY_SEVERITIES.find? (fun cand => sevMatch s cand) with
    | some cand => some (some cand)
    | none => none

/-- NotifyPagerDuty init: validates every field in source order and either
produces the adapter or fails (the raised TypeError becomes none). -/
def pagerDutyInit (i : PagerDutyInit) : Option PagerDuty :=
  (validate_regex_d i.apikey).bind fun apikey =>
  (validate_regex_d i.integrationkey).bind fun ikey =>
  (sourceOf i.source).bind fun src =>
  (componentOf i.component).bind fun comp =>
  (regionOf i.region_name).bind fun reg =>
  (sevOf i.severity).map fun sev =>
    { apikey := apikey
      integration_key := ikey
      source := src
      component := comp
      region_name := reg
      severity := sev
      click := i.click
      class_id := i.class_id
      group := i.group
      details := i.details
      include_image := i.include_image }

/-- The JSON body NotifyPagerDuty.send posts (images are attached through the
external image collaborator and are outside this model). -/
structure PdPayload where
  routing_key : String
  summary : String
  severity : String
  source : String
  component : String
  group : Option String
  class_id : Option String
  links : Option String
  custom_details : Option (List (String × String))
deriving DecidableEq, Repr

/-- Payload construction inside NotifyPagerDuty.send: the severity is the
fixed map of the notify type unless the stored override is truthy, and the
optional keys are added only when their stored values are truthy. -/
def pagerDutyPayload (a : PagerDuty) (body : String) (nt : NotifyType) : PdPayload :=
  { routing_key := a.integration_key
    summary := body
    severity :=
      match a.severity with
      | none => PAGERDUTY_SEVERITY_MAP nt
      | some v => if v = "" then PAGERDUTY_SEVERITY_MAP nt else v
    source := a.source
    component := a.component
    group := if truthyOpt a.group then a.group else none
    class_id := if truthyOpt a.class_id then a.class_id else none
    links := if truthyOpt a.click then a.click else none
    custom_details := if a.details.isEmpty then none else some a.details }

def requests_codes_ok : Nat := 200

def requests_codes_created : Nat := 201

def requests_codes_accepted : Nat := 202

/-- NotifyPagerDuty.send: builds the payload, posts it, and reports success
exactly when the status code is 200, 201 or 202; a requests exception is
caught and reported as failure. -/
def pagerDutySend (a : PagerDuty) (body : String) (_title : String)
    (nt : NotifyType) (http : HttpResult) : PdPayload × Bool :=
  (pagerDutyPayload a body nt,
    match http with
    | HttpResult.response c =>
      if ¬(c = requests_codes_ok ∨ c = requests_codes_created ∨
            c = requests_codes_accepted) then false else true
    | HttpResult.exception => false)

/-- NotifyPagerDuty.send with the adapter state threaded explicitly: the
method body assigns no attribute of self, so the post-state is the input
adapter. -/
def pagerDutySendSt (a : PagerDuty) (body title : String) (nt : NotifyType)
    (http : HttpResult) : PagerDuty × (PdPayload × Bool) :=
  (a, pagerDutySend a body title nt http)

/-
PagerDuty URL layer.  NotifyBase.parse_url and the percent-encoding helpers
(quote, unquote, urlencode, pprint) live outside the provided sources; per
the spec the serializer preserves URL structure and, with privacy disabled,
secrets are rendered verbatim, so this embedding works on the structured
output of the base parser (user, host, path segments and query maps) and
models quoting and unquoting as the identity.
-/

/-- Modelled from the spec: the structured result of NotifyBase.parse_url as
the PagerDuty plugin consumes it: the userinfo, the host, the path split
into segments, the plain query arguments, and the plus-prefixed custom
detail arguments. -/
structure PdBaseUrl where
  user : Option String
  host : String
  fullpath : List String
  qsd : String → Option String
  qsdPlus : List (String × String)

/-- Lookup of a query argument that also requires a non-empty value (the
repeated pattern: key in qsd and len(qsd(key)) in the source). -/
def qsdNonempty (q : String → Option String) (k : String) : Option String :=
  match q k with
  | some v => if v = "" then none else some v
  | none => none

/-- NotifyPagerDuty.parse_url on the structured base-parser output: query
arguments override positional values, the path segments are consumed
left-to-right for source then component, the plus-prefixed arguments become
the custom details, and the image argument is parsed as a boolean defaulting
to true. -/
def pagerDutyParseUrl (r : PdBaseUrl) : PagerDutyInit :=
  let sourceFp : Option String × List String :=
    match qsdNonempty r.qsd "source" with
    | some v => (some v, r.fullpath)
    | none => (r.fullpath.head?, r.fullpath.tail)
  let componentFp : Option String × List String :=
    match qsdNonempty r.qsd "component" with
    | some v => (some v, sourceFp.2)
    | none => (sourceFp.2.head?, sourceFp.2.tail)
  { apikey :=
      some (match qsdNonempty r.qsd "apikey" with
        | some v => v
        | none => r.host)
    integrationkey :=
      some (match qsdNonempty r.qsd "integrationkey" with
        | some v => v
        | none => r.user.getD "")
    source := sourceFp.1
    component := componentFp.1
    click := qsdNonempty r.qsd "click"
    group := qsdNonempty r.qsd "group"
    class_id := qsdNonempty r.qsd "class"
    severity := qsdNonempty r.qsd "severity"
    details := r.qsdPlus
    region_name := qsdNonempty r.qsd "region"
    include_image :=
      match r.qsd "image" with
      | none => true
      | some v => parse_bool v false }

/-- The query arguments NotifyPagerDuty.url emits, as a lookup function:
region and image are always present, class, group and severity only when
truthy, and click whenever it is not None. -/
def pagerDutyUrlQsd (a : PagerDuty) : String → Option String := fun k =>
  if k = "region" then some a.region_name
  else if k = "image" then some (if a.include_image then "yes" else "no")
  else if k = "class" then (if truthyOpt a.class_id then a.class_id else none)
  else if k = "group" then (if truthyOpt a.group then a.group else none)
  else if k = "click" then a.click
  else if k = "severity" then (if truthyOpt a.severity then a.severity else none)
  else none

/-- NotifyPagerDuty.url with privacy disabled, as structured URL parts: the
integration key is the userinfo, the api key is the host, the path holds
source then component, and the custom details ride as plus-prefixed query
arguments. -/
def pagerDutyUrlParts (a : PagerDuty) : PdBaseUrl :=
  { user := some a.integration_key
    host := a.apikey
    fullpath := [a.source, a.component]
    qsd := pagerDutyUrlQsd a
    qsdPlus := a.details }

/-
Kodi/XBMC plugin (src/apprise/plugins/xbmc.py).
-/

/-- True when the last character of the string is the given character. -/
def endsWithChar (s : String) (c : Char) : Bool :=
  match s.toList.reverse with
  | [] => false
  | d :: _ => d == c

/-- True when the second string starts with the first. -/
def strStartsWithStr (pre s : String) : Bool :=
  pre.toList.isPrefixOf s.toList

/-- Modelled from the spec: the structured result of NotifyBase.parse_url as
the Kodi/XBMC plugin consumes it; the secure flag is derived from whether
the scheme ends in the letter s. -/
structure BaseResults where
  schema : String
  user : Option String
  password : Option String
  host : String
  port : Option Nat
  secure : Bool
  qsd : String → Option String

/-- Modelled from the spec: the base parser output for a URL of the shape
scheme://host or scheme://host:port with optional query arguments; the
secure flag is true exactly when the scheme ends in s. -/
def baseResultsOf (schema host : String) (port : Option Nat)
    (qsd : String → Option String) : BaseResults :=
  { schema := schema
    user := none
    password := none
    host := host
    port := port
    secure := endsWithChar schema 's'
    qsd := qsd }

/-- Value of one decimal digit list, most significant first. -/
def digitsVal (l : List Char) : Nat :=
  l.foldl (fun acc c => acc * 10 + (c.toNat - 48)) 0

/-- Modelled from the spec: the int() conversion the Kodi/XBMC parser applies
to the duration query value, as an optional sign followed by decimal
digits; anything else raises and is suppressed by the caller. -/
def parseInt (s : String) : Option Int :=
  let signDigits : Int × List Char :=
    match s.toList with
    | '-' :: tl => (-1, tl)
    | '+' :: tl => (1, tl)
    | l => (1, l)
  if signDigits.2 ≠ [] ∧ signDigits.2.all Char.isDigit then
    some (signDigits.1 * (digitsVal signDigits.2 : Int))
  else
    none

/-- The keyword arguments a NotifyXBMC object is built from, after parse_url
has run (the base-parser fields plus the plugin-specific ones). -/
structure XbmcResults where
  host : String
  port : Option Nat
  user : Option String
  password : Option String
  secure : Bool
  protocol : Nat
  include_image : Bool
  duration : Option Int
deriving Repr

/-- NotifyXBMC.parse_url: an xbmc-prefixed scheme selects protocol version 2
and fills in the default port 8080 when the port is falsy, any other scheme
selects protocol version 6; the image argument parses as a boolean
defaulting to true, and the duration argument is abs(int(value)) with
conversion errors suppressed (leaving the duration unset). -/
def xbmcParseUrl (r : BaseResults) : XbmcResults :=
  let protPort : Nat × Option Nat :=
    if strStartsWithStr "xbmc" r.schema then
      (2,
        match r.port with
        | none => some 8080
        | some p => if p = 0 then some 8080 else some p)
    else
      (6, r.port)
  { host := r.host
    port := protPort.2
    user := r.user
    password := r.password
    secure := r.secure
    protocol := protPort.1
    include_image :=
      match r.qsd "image" with
      | none => true
      | some v => parse_bool v false
    duration :=
      match r.qsd "duration" with
      | none => none
      | some s =>
        match parseInt s with
        | none => none
        | some n => some (n.natAbs : Int) }

def xbmc_duration_default : Int := 12

def xbmc_duration_min : Int := 1

/-- A constructed Kodi/XBMC adapter. -/
structure XBMC where
  host : String
  port : Option Nat
  user : Option String
  password : Option String
  secure : Bool
  protocol : Nat
  duration : Int
  include_image : Bool
deriving DecidableEq, Repr

/-- NotifyXBMC init: the duration falls back to the default 12 unless the
argument is an int and the declared template minimum is positive; the source
tests the template minimum rather than the supplied duration, so every
supplied int is accepted as is. -/
def xbmcInit (r : XbmcResults) : XBMC :=
  { host := r.host
    port := r.port
    user := r.user
    password := r.password
    secure := r.secure
    protocol := r.protocol
    duration :=
      match r.duration with
      | some d => if xbmc_duration_min > 0 then d else xbmc_duration_default
      | none => xbmc_duration_default
    include_image := r.include_image }

/-- The JSON-RPC notification body the Kodi/XBMC payload builders emit; the
image URL comes from the external image collaborator and is passed in as an
oracle value. -/
structure XbmcPayload where
  title : String
  message : String
  displaytime : Int
  image : Option String
  ptype : Option String
deriving DecidableEq, Repr

/-- NotifyXBMC payload for API v2: displaytime is duration times 1000 and a
truthy image URL is attached; there is no type field. -/
def xbmcPayload20 (a : XBMC) (title body : String) (_nt : NotifyType)
    (image_url : Option String) : XbmcPayload :=
  let img := if a.include_image then image_url else none
  { title := title
    message := body
    displaytime := a.duration * 1000
    image := if truthyOpt img then img else none
    ptype := none }

/-- NotifyXBMC payload for API v6: as v2, and when a truthy image URL is
attached a top-level type field classifies the notification as error,
warning or info. -/
def xbmcPayload60 (a : XBMC) (title body : String) (nt : NotifyType)
    (image_url : Option String) : XbmcPayload :=
  let img := if a.include_image then image_url else none
  { title := title
    message := body
    displaytime := a.duration * 1000
    image := if truthyOpt img then img else none
    ptype :=
      if truthyOpt img then
        some (match nt with
          | NotifyType.failure => "error"
          | NotifyType.warning => "warning"
          | _ => "info")
      else none }

/-- NotifyXBMC.send: protocol version 2 selects the v2 payload, anything else
the v6 payload; success demands status code exactly 200 and a requests
exception is caught and reported as failure. -/
def xbmcSend (a : XBMC) (body title : String) (nt : NotifyType)
    (image_url : Option String) (http : HttpResult) : XbmcPayload × Bool :=
  let payload :=
    if a.protocol = 2 then xbmcPayload20 a title body nt image_url
    else xbmcPayload60 a title body nt image_url
  (payload,
    match http with
    | HttpResult.response c => if c ≠ requests_codes_ok then false else true
    | HttpResult.exception => false)

/-- NotifyXBMC.send with the adapter state threaded explicitly: the method
assigns no attribute of self, so the post-state is the input adapter. -/
def xbmcSendSt (a : XBMC) (body title : String) (nt : NotifyType)
    (image_url : Option String) (http : HttpResult) :
    XBMC × (XbmcPayload × Bool) :=
  (a, xbmcSend a body title nt image_url http)

/-- The scheme NotifyXBMC.url renders: xbmc for protocol versions up to 2,
kodi otherwise, with the letter s appended when secure. -/
def xbmcUrlSchema (a : XBMC) : String :=
  (if a.protocol ≤ 2 then "xbmc" else "kodi") ++ (if a.secure then "s" else "")

/-- The port fragment NotifyXBMC.url renders: empty when the port is falsy or
equals the default port (443 when secure, 8080 otherwise), the explicit
colon-prefixed port in every other case. -/
def xbmcUrlPortPart (a : XBMC) : String :=
  let default_port : Nat := if a.secure then 443 else 8080
  match a.port with
  | none => ""
  | some p => if p = 0 ∨ p = default_port then "" else ":" ++ toString p

/-- NotifyXBMC.url with privacy disabled: scheme, optional userinfo, host,
the port fragment, and the image and duration query arguments (the extra
base-class query arguments are outside this model). -/
def xbmcUrl (a : XBMC) : String :=
  let auth :=
    if truthyOpt a.user ∧ truthyOpt a.password then
      a.user.getD "" ++ ":" ++ a.password.getD "" ++ "@"
    else if truthyOpt a.user then a.user.getD "" ++ "@"
    else ""
  xbmcUrlSchema a ++ "://" ++ auth ++ a.host ++ xbmcUrlPortPart a ++
    "/?image=" ++ (if a.include_image then "yes" else "no") ++
    "&duration=" ++ toString a.duration

/-
Zulip plugin (src/apprise/plugins/zulip.py).
-/

/-- The character class of the VALIDATE_BOTNAME and VALIDATE_ORG patterns:
ASCII letters and digits (the patterns carry the ignore-case flag), the
underscore and the hyphen. -/
def isWordChar (c : Char) : Bool :=
  c.isAlphanum || c == '_' || c == '-'

/-- The strip() call the Zulip init applies before matching: leading and
trailing whitespace is removed. -/
def pyStrip (s : String) : String :=
  String.mk (((s.toList.dropWhile Char.isWhitespace).reverse.dropWhile
    Char.isWhitespace).reverse)

/-- True when the character list ends with the given pattern. -/
def endsWithList (l pat : List Char) : Bool :=
  pat.reverse.isPrefixOf l.reverse

/-- The VALIDATE_BOTNAME match in the Zulip init: the pattern is anchored
only at the start, so it greedily takes up to 32 word characters from the
front of the stripped botname and succeeds whenever at least one matches;
a trailing -bot suffix of the matched part is then stripped.  The result is
none exactly when the match fails (construction error). -/
def zulipBotname (botname : String) : Option String :=
  let nm := ((pyStrip botname).toList.takeWhile isWordChar).take 32
  if nm.isEmpty then none
  else if endsWithList nm "-bot".toList then
    some (String.mk (nm.take (nm.length - 4)))
  else
    some (String.mk nm)

/-- The VALIDATE_ORG match in the Zulip init: up to 32 word characters from
the front of the stripped organization form the organization name, and an
immediately following dot introduces an optional hostname made of the
following run of non-whitespace characters. -/
def zulipOrg (organization : String) : Option (String × Option String) :=
  let ol := (pyStrip organization).toList
  let og := (ol.takeWhile isWordChar).take 32
  if og.isEmpty then none
  else
    let hostname : Option String :=
      match ol.drop og.length with
      | '.' :: tl =>
        let h := tl.takeWhile (fun c => !c.isWhitespace)
        if h.isEmpty then none else some (String.mk h)
      | _ => none
    some (String.mk og, hostname)

/-- Modelled from the spec: validate_regex applied to the Zulip token with
the anchored pattern of 32 case-insensitive alphanumerics declared in the
template tokens; the token is valid exactly when it is 32 alphanumeric
characters, and None is rejected. -/
def zulipToken : Option String → Option String
  | none => none
  | some tk =>
    if tk.length = 32 ∧ tk.toList.all Char.isAlphanum then some tk else none

/-- The delimiter characters splitting a combined target string apart
(TARGET_LIST_DELIM in the source). -/
def TARGET_LIST_DELIM : List Char :=
  [' ', '\t', '\r', '\n', ',', '#', '\\', '/']

/-- Modelled from the spec: apprise.utils.parse.parse_list, which splits
every entry on the delimiter set and concatenates the non-empty pieces in
order. -/
def parse_list (ls : List String) : List String :=
  ls.foldr
    (fun s acc =>
      ((splitByDelims TARGET_LIST_DELIM s.toList).filter
        (fun g => !g.isEmpty)).map String.mk ++ acc)
    []

/-- The default hostname appended to an organization without an embedded
hostname (NotifyZulip default_hostname). -/
def zulip_default_hostname : String := "zulipchat.com"

/-- The default stream notified when no targets are specified (NotifyZulip
default_notification_stream). -/
def zulip_default_stream : String := "general"

/-- A constructed Zulip adapter. -/
structure Zulip where
  botname : String
  organization : String
  hostname : String
  token : String
  targets : List String
deriving DecidableEq, Repr

/-- NotifyZulip init: validates the botname, the organization (optionally
carrying a hostname that overrides the zulipchat.com default) and the token,
then normalizes the target list, substituting the default stream when it is
empty. -/
def zulipInit (botname organization : String) (token : Option String)
    (targets : List String) : Option Zulip :=
  (zulipBotname botname).bind fun bn =>
  (zulipOrg organization).bind fun orgHost =>
  (zulipToken token).map fun tk =>
    let ts := parse_list targets
    { botname := bn
      organization := orgHost.1
      hostname :=
        match orgHost.2 with
        | some h => h
        | none => zulip_default_hostname
      token := tk
      targets := if ts.isEmpty then [zulip_default_stream] else ts }

/-- One message POST the Zulip send loop performs: the message type and the
to field of the form payload (subject and content are shared by every
iteration). -/
structure ZulipPost where
  ptype : String
  toAddr : String
deriving DecidableEq, Repr

/-- Success test the Zulip send loop applies to one POST: status code 200. -/
def httpOk200 (h : HttpResult) : Bool :=
  match h with
  | HttpResult.response c => c == 200
  | HttpResult.exception => false

/-- The while loop of NotifyZulip.send over the copied target list: each
target is popped in order, sent as a private message when it parses as an
email (addressing the full email) and as a stream message otherwise, and a
failed POST (bad status or requests exception) only marks has_error and
continues with the remaining targets.  The oracle maps the position of the
POST to its outcome. -/
def zulipSendLoop (http : Nat → HttpResult) (idx : Nat) (targets : List String)
    (hasError : Bool) : List ZulipPost × Bool :=
  match targets with
  | [] => ([], hasError)
  | t :: rest =>
    let result := is_email t
    let post : ZulipPost :=
      { ptype := match result with
          | some _ => "private"
          | none => "stream"
        toAddr := match result with
          | some full => full
          | none => t }
    let ok := httpOk200 (http idx)
    let next := zulipSendLoop http (idx + 1) rest (hasError || !ok)
    (post :: next.1, next.2)

/-- NotifyZulip.send: copies the target list, runs the loop with has_error
initially false, and returns the posts made and the overall result, which is
true exactly when has_error stayed false. -/
def zulipSend (a : Zulip) (_body _title : String)
    (http : Nat → HttpResult) : List ZulipPost × Bool :=
  let targetsCopy := a.targets
  let r := zulipSendLoop http 0 targetsCopy false
  (r.1, !r.2)

/-- NotifyZulip.send with the adapter state threaded explicitly: the loop
consumes a copy of the target list and the method assigns no attribute of
self, so the post-state is the input adapter. -/
def zulipSendSt (a : Zulip) (body title : String) (http : Nat → HttpResult) :
    Zulip × (List ZulipPost × Bool) :=
  (a, zulipSend a body title http)

/-
Helper lemmas.
-/

lemma validate_regex_d_some {o : Option String} {v : String}
    (h : validate_regex_d o = some v) : o = some v ∧ hasNonWs v = true := by
  cases o with
  | none => simp [validate_regex_d] at h
  | some s =>
    by_cases hw : hasNonWs s
    · simp [validate_regex_d, hw] at h
      exact ⟨by rw [h], by rw [← h]; exact hw⟩
    · simp [validate_regex_d, hw] at h

lemma hasNonWs_ne_empty {v : String} (h : hasNonWs v = true) : v ≠ "" := by
  intro he
  subst he
  simp [hasNonWs] at h

lemma sourceOf_some {o : Option String} {v : String}
    (h : sourceOf o = some v) : hasNonWs v = true := by
  cases o with
  | none =>
    simp [sourceOf] at h
    rw [← h]
    decide
  | some s =>
    by_cases he : s = ""
    · simp [sourceOf, he] at h
      rw [← h]
      decide
    · simp [sourceOf, he] at h
      exact (validate_regex_d_some h).2

lemma componentOf_some {o : Option String} {v : String}
    (h : componentOf o = some v) : hasNonWs v = true := by
  cases o with
  | none =>
    simp [componentOf] at h
    rw [← h]
    decide
  | some s =>
    by_cases he : s = ""
    · simp [componentOf, he] at h
      rw [← h]
      decide
    · simp [componentOf, he] at h
      exact (validate_regex_d_some h).2

lemma regionOf_some {o : Option String} {v : String}
    (h : regionOf o = some v) : v = "us" ∨ v = "eu" := by
  cases o with
  | none =>
    have hd : regionOf none = some "us" := by decide
    rw [hd] at h
    injection h with h
    exact Or.inl h.symm
  | some s =>
    simp only [regionOf] at h
    split at h
    next hc =>
      injection h with h
      subst h
      by_cases h1 : strLower s = "us"
      · exact Or.inl h1
      · by_cases h2 : strLower s = "eu"
        · exact Or.inr h2
        · exfalso
          simp [PAGERDUTY_REGIONS, List.contains, h1, h2] at hc
    next hc => exact absurd h (by simp)

lemma sevOf_some {o : Option String} {sv : Option String}
    (h : sevOf o = some sv) :
    sv = none ∨ sv = some "info" ∨ sv = some "warning" ∨
      sv = some "critical" ∨ sv = some "error" := by
  cases o with
  | none =>
    simp [sevOf] at h
    exact Or.inl h.symm
  | some s =>
    simp only [sevOf] at h
    split at h
    next cand hf =>
      injection h with h
      have hm : cand ∈ PAGERDUTY_SEVERITIES := List.mem_of_find?_eq_some hf
      subst h
      simp [PAGERDUTY_SEVERITIES] at hm
      rcases hm with hm | hm | hm | hm <;> simp [hm]
    next hf => exact absurd h (by simp)

lemma qsdNonempty_cases (q : String → Option String) (k : String) :
    qsdNonempty q k = none ∨
      ∃ v, qsdNonempty q k = some v ∧ v ≠ "" := by
  unfold qsdNonempty
  cases q k with
  | none => exact Or.inl rfl
  | some v =>
    by_cases he : v = ""
    · refine Or.inl ?_
      show (if v = "" then none else some v) = none
      rw [if_pos he]
    · refine Or.inr ⟨v, ?_, he⟩
      show (if v = "" then none else some v) = some v
      rw [if_neg he]

lemma pagerDutyInit_eq_some {i : PagerDutyInit} {a : PagerDuty}
    (h : pagerDutyInit i = some a) :
    validate_regex_d i.apikey = some a.apikey ∧
    validate_regex_d i.integrationkey = some a.integration_key ∧
    sourceOf i.source = some a.source ∧
    componentOf i.component = some a.component ∧
    regionOf i.region_name = some a.region_name ∧
    sevOf i.severity = some a.severity ∧
    i.click = a.click ∧ i.class_id = a.class_id ∧ i.group = a.group ∧
    i.details = a.details ∧ i.include_image = a.include_image := by
  unfold pagerDutyInit at h
  rw [Option.bind_eq_some] at h
  obtain ⟨apikey, h1, h⟩ := h
  rw [Option.bind_eq_some] at h
  obtain ⟨ikey, h2, h⟩ := h
  rw [Option.bind_eq_some] at h
  obtain ⟨src, h3, h⟩ := h
  rw [Option.bind_eq_some] at h
  obtain ⟨comp, h4, h⟩ := h
  rw [Option.bind_eq_some] at h
  obtain ⟨reg, h5, h⟩ := h
  rw [Option.map_eq_some'] at h
  obtain ⟨sev, h6, h7⟩ := h
  subst h7
  exact ⟨h1, h2, h3, h4, h5, h6, rfl, rfl, rfl, rfl, rfl⟩

lemma pagerDutyInit_build {i : PagerDutyInit} {a : PagerDuty}
    (h1 : validate_regex_d i.apikey = some a.apikey)
    (h2 : validate_regex_d i.integrationkey = some a.integration_key)
    (h3 : sourceOf i.source = some a.source)
    (h4 : componentOf i.component = some a.component)
    (h5 : regionOf i.region_name = some a.region_name)
    (h6 : sevOf i.severity = some a.severity)
    (h7 : i.click = a.click) (h8 : i.class_id = a.class_id)
    (h9 : i.group = a.group) (h10 : i.details = a.details)
    (h11 : i.include_image = a.include_image) :
    pagerDutyInit i = some a := by
  unfold pagerDutyInit
  rw [h1, h2, h3, h4, h5, h6, h7, h8, h9, h10, h11]
  rfl

lemma pagerDutyInit_sevOf_none {i : PagerDutyInit}
    (h : sevOf i.severity = none) : pagerDutyInit i = none := by
  unfold pagerDutyInit
  cases validate_regex_d i.apikey with
  | none => rfl
  | some apikey =>
  cases validate_regex_d i.integrationkey with
  | none => rfl
  | some ikey =>
  cases sourceOf i.source with
  | none => rfl
  | some src =>
  cases componentOf i.component with
  | none => rfl
  | some comp =>
  cases regionOf i.region_name with
  | none => rfl
  | some reg =>
    simp [h]

lemma pagerDutyInit_regionOf_none {i : PagerDutyInit}
    (h : regionOf i.region_name = none) : pagerDutyInit i = none := by
  unfold pagerDutyInit
  cases validate_regex_d i.apikey with
  | none => rfl
  | some apikey =>
  cases validate_regex_d i.integrationkey with
  | none => rfl
  | some ikey =>
  cases sourceOf i.source with
  | none => rfl
  | some src =>
  cases componentOf i.component with
  | none => rfl
  | some comp =>
    simp [h]

/-- C1: for every constructed PagerDuty adapter, send places in the payload
the fixed severity map of the generic notify type (info and success map to
info, warning to warning, failure to critical) when the adapter was built
without an explicit severity override, and the stored override severity for
every notify type when one was configured. -/
theorem pagerduty_send_severity_resolution
    (i : PagerDutyInit) (a : PagerDuty) (body : String)
    (h : pagerDutyInit i = some a) :
    (i.severity = none →
      (pagerDutyPayload a body NotifyType.info).severity = "info" ∧
      (pagerDutyPayload a body NotifyType.success).severity = "info" ∧
      (pagerDutyPayload a body NotifyType.warning).severity = "warning" ∧
      (pagerDutyPayload a body NotifyType.failure).severity = "critical") ∧
    (∀ s, i.severity = some s →
      ∃ v, a.severity = some v ∧
        ∀ nt, (pagerDutyPayload a body nt).severity = v) := by
  obtain ⟨-, -, -, -, -, h6, -⟩ := pagerDutyInit_eq_some h
  constructor
  · intro hs
    rw [hs] at h6
    simp only [sevOf] at h6
    have ha : a.severity = none := by
      injection h6 with h6
      exact h6.symm
    refine ⟨?_, ?_, ?_, ?_⟩ <;>
      simp [pagerDutyPayload, ha, PAGERDUTY_SEVERITY_MAP]
  · intro s hs
    rw [hs] at h6
    simp only [sevOf] at h6
    split at h6
    next cand hf =>
      injection h6 with h6
      have hm : cand ∈ PAGERDUTY_SEVERITIES := List.mem_of_find?_eq_some hf
      simp [PAGERDUTY_SEVERITIES] at hm
      refine ⟨cand, h6.symm, ?_⟩
      intro nt
      rcases hm with hm | hm | hm | hm <;>
        simp [pagerDutyPayload, ← h6, hm]
    next hf => exact absurd h6 (by simp)

/-- Witness for C1 at a concrete adapter without an override and one with the
error override. -/
theorem pagerduty_send_severity_resolution_witness :
    ((pagerDutyPayload
        { apikey := "akey", integration_key := "rkey", source := "Apprise",
          component := "Notification", region_name := "us", severity := none,
          click := none, class_id := none, group := none, details := [],
          include_image := true } "b" NotifyType.success).severity = "info" ∧
      (pagerDutyPayload
        { apikey := "akey", integration_key := "rkey", source := "Apprise",
          component := "Notification", region_name := "us", severity := none,
          click := none, class_id := none, group := none, details := [],
          include_image := true } "b" NotifyType.failure).severity =
        "critical") ∧
    ∃ v,
      ({ apikey := "akey", integration_key := "rkey", source := "Apprise",
          component := "Notification", region_name := "us",
          severity := some "error", click := none, class_id := none,
          group := none, details := [], include_image := true } :
            PagerDuty).severity = some v ∧
        ∀ nt,
          (pagerDutyPayload
            { apikey := "akey", integration_key := "rkey",
              source := "Apprise", component := "Notification",
              region_name := "us", severity := some "error", click := none,
              class_id := none, group := none, details := [],
              include_image := true } "b" nt).severity = v := by
  have t1 := pagerduty_send_severity_resolution
    { apikey := some "akey", integrationkey := some "rkey", source := none,
      component := none, group := none, class_id := none,
      include_image := true, click := none, details := [],
      region_name := none, severity := none }
    { apikey := "akey", integration_key := "rkey", source := "Apprise",
      component := "Notification", region_name := "us", severity := none,
      click := none, class_id := none, group := none, details := [],
      include_image := true } "b" (by decide)
  have t2 := pagerduty_send_severity_resolution
    { apikey := some "akey", integrationkey := some "rkey", source := none,
      component := none, group := none, class_id := none,
      include_image := true, click := none, details := [],
      region_name := none, severity := some "error" }
    { apikey := "akey", integration_key := "rkey", source := "Apprise",
      component := "Notification", region_name := "us",
      severity := some "error", click := none, class_id := none,
      group := none, details := [], include_image := true } "b" (by decide)
  exact ⟨⟨(t1.1 rfl).2.1, (t1.1 rfl).2.2.2⟩, t2.2 "error" rfl⟩

/-- C10: constructing a PagerDuty adapter with the empty string as severity
succeeds exactly when the same construction with severity omitted succeeds,
and then stores the explicit override info (the empty string prefix matches
the first severity in the list); every subsequent send posts severity info
whatever notify type is passed. -/
theorem pagerduty_empty_severity (i : PagerDutyInit)
    (h : i.severity = some "") :
    pagerDutyInit i =
      Option.map (fun a => { a with severity := some "info" })
        (pagerDutyInit { i with severity := none }) ∧
    ∀ a, pagerDutyInit i = some a →
      a.severity = some "info" ∧
      ∀ body nt, (pagerDutyPayload a body nt).severity = "info" := by
  have hsev : sevOf (some "") = some (some "info") := by decide
  constructor
  · unfold pagerDutyInit
    simp only [h, hsev]
    cases validate_regex_d i.apikey with
    | none => rfl
    | some apikey =>
    cases validate_regex_d i.integrationkey with
    | none => rfl
    | some ikey =>
    cases sourceOf i.source with
    | none => rfl
    | some src =>
    cases componentOf i.component with
    | none => rfl
    | some comp =>
    cases regionOf i.region_name with
    | none => rfl
    | some reg => rfl
  · intro a ha
    obtain ⟨-, -, -, -, -, h6, -⟩ := pagerDutyInit_eq_some ha
    rw [h, hsev] at h6
    injection h6 with h6
    refine ⟨h6.symm, ?_⟩
    intro body nt
    simp [pagerDutyPayload, ← h6]

/-- Witness for C10 at a concrete construction. -/
theorem pagerduty_empty_severity_witness :
    pagerDutyInit
        { apikey := some "akey", integrationkey := some "rkey",
          source := none, component := none, group := none, class_id := none,
          include_image := true, click := none, details := [],
          region_name := none, severity := some "" } =
      some
        { apikey := "akey", integration_key := "rkey", source := "Apprise",
          component := "Notification", region_name := "us",
          severity := some "info", click := none, class_id := none,
          group := none, details := [], include_image := true } ∧
    ({ apikey := "akey", integration_key := "rkey", source := "Apprise",
        component := "Notification", region_name := "us",
        severity := some "info", click := none, class_id := none,
        group := none, details := [], include_image := true } :
          PagerDuty).severity = some "info" ∧
    (pagerDutyPayload
        { apikey := "akey", integration_key := "rkey", source := "Apprise",
          component := "Notification", region_name := "us",
          severity := some "info", click := none, class_id := none,
          group := none, details := [], include_image := true } "b"
        NotifyType.failure).severity = "info" := by
  have t := pagerduty_empty_severity
    { apikey := some "akey", integrationkey := some "rkey",
      source := none, component := none, group := none, class_id := none,
      include_image := true, click := none, details := [],
      region_name := none, severity := some "" } rfl
  have hsome := t.2
    { apikey := "akey", integration_key := "rkey", source := "Apprise",
      component := "Notification", region_name := "us",
      severity := some "info", click := none, class_id := none,
      group := none, details := [], include_image := true } (by decide)
  exact ⟨by decide, hsome.1, hsome.2 "b" NotifyType.failure⟩

lemma find?_congr_str {p q : String → Bool} :
    ∀ l : List String, (∀ x ∈ l, p x = q x) → l.find? p = l.find? q := by
  intro l
  induction l with
  | nil => intro _; rfl
  | cons a t ih =>
    intro h
    have ha : p a = q a := h a (by simp)
    simp only [List.find?]
    rw [ha]
    cases q a with
    | true => rfl
    | false => exact ih (fun x hx => h x (by simp [hx]))

lemma sevFind_drop_lower (s : String) :
    PAGERDUTY_SEVERITIES.find? (fun cand => sevMatch s cand) =
      PAGERDUTY_SEVERITIES.find?
        (fun cand => s.toList.isPrefixOf cand.toList) := by
  apply find?_congr_str
  intro x hx
  simp [PAGERDUTY_SEVERITIES] at hx
  unfold sevMatch
  rcases hx with hx | hx | hx | hx <;> subst hx <;>
    simp only [show strLower "info" = "info" from by decide,
      show strLower "warning" = "warning" from by decide,
      show strLower "critical" = "critical" from by decide,
      show strLower "error" = "error" from by decide]

/-- C6 counterexample: the claim reads the prefix match as case-insensitive,
so the severity string Info would resolve to info and construction would
succeed; on the code the supplied string is never lowercased, the match
fails and construction raises. -/
theorem pagerduty_severity_case_counterexample :
    pagerDutyInit
      { apikey := some "akey", integrationkey := some "rkey",
        source := none, component := none, group := none, class_id := none,
        include_image := true, click := none, details := [],
        region_name := none, severity := some "Info" } = none := by decide

/-- C6 (amended): an explicitly supplied severity is resolved by a
case-sensitive prefix match (the candidates are lowercased, the supplied
string is compared as is) against the ordered sequence info, warning,
critical, error as laid out in the source, taking the first candidate the
supplied string is a prefix of; no match makes construction fail, while an
omitted severity stores no override. -/
theorem pagerduty_severity_prefix_resolution (i : PagerDutyInit) :
    (i.severity = none →
      ∀ a, pagerDutyInit i = some a → a.severity = none) ∧
    (∀ s, i.severity = some s →
      (PAGERDUTY_SEVERITIES.find?
          (fun cand => s.toList.isPrefixOf cand.toList) = none →
        pagerDutyInit i = none) ∧
      (∀ c, PAGERDUTY_SEVERITIES.find?
            (fun cand => s.toList.isPrefixOf cand.toList) = some c →
        ∀ a, pagerDutyInit i = some a → a.severity = some c)) := by
  constructor
  · intro hs a ha
    obtain ⟨-, -, -, -, -, h6, -⟩ := pagerDutyInit_eq_some ha
    rw [hs] at h6
    simp only [sevOf] at h6
    injection h6 with h6
    exact h6.symm
  · intro s hs
    constructor
    · intro hf
      apply pagerDutyInit_sevOf_none
      rw [hs]
      simp only [sevOf]
      rw [sevFind_drop_lower, hf]
    · intro c hf a ha
      obtain ⟨-, -, -, -, -, h6, -⟩ := pagerDutyInit_eq_some ha
      rw [hs] at h6
      simp only [sevOf] at h6
      rw [sevFind_drop_lower, hf] at h6
      injection h6 with h6
      exact h6.symm

/-- Witness for C6 at the severity string warn, which prefix matches
warning and is stored as the override. -/
theorem pagerduty_severity_prefix_resolution_witness :
    PAGERDUTY_SEVERITIES.find?
        (fun cand => "warn".toList.isPrefixOf cand.toList) =
      some "warning" ∧
    ({ apikey := "akey", integration_key := "rkey", source := "Apprise",
        component := "Notification", region_name := "us",
        severity := some "warning", click := none, class_id := none,
        group := none, details := [], include_image := true } :
          PagerDuty).severity = some "warning" := by
  have t := (pagerduty_severity_prefix_resolution
    { apikey := some "akey", integrationkey := some "rkey",
      source := none, component := none, group := none, class_id := none,
      include_image := true, click := none, details := [],
      region_name := none, severity := some "warn" }).2 "warn" rfl
  exact ⟨by decide,
    t.2 "warning" (by decide)
      { apikey := "akey", integration_key := "rkey", source := "Apprise",
        component := "Notification", region_name := "us",
        severity := some "warning", click := none, class_id := none,
        group := none, details := [], include_image := true } (by decide)⟩

/-- C5 counterexample: the claim says a Zulip botname containing a space
fails construction; on the code the unanchored botname pattern matches the
leading word characters, so the botname my bot is silently truncated to my
and construction succeeds. -/
theorem zulip_botname_space_counterexample :
    zulipInit "my bot" "apprise"
        (some "abcdefghijklmnopqrstuvwxyz012345") [] =
      some
        { botname := "my", organization := "apprise",
          hostname := "zulipchat.com",
          token := "abcdefghijklmnopqrstuvwxyz012345",
          targets := ["general"] } := by decide

/-- C5 (amended): construction fails for the PagerDuty region ca and for a
Zulip token of 31 characters; a Zulip botname containing a space after its
first word character does not fail construction: the name is truncated at
the first character outside the botname character class, so my bot is
stored as the botname my. -/
theorem construction_failure_cases :
    (∀ i : PagerDutyInit, i.region_name = some "ca" →
      pagerDutyInit i = none) ∧
    (∀ (bn og tk : String) (tg : List String), tk.length = 31 →
      zulipInit bn og (some tk) tg = none) ∧
    zulipInit "my bot" "apprise"
        (some "abcdefghijklmnopqrstuvwxyz012345") [] =
      some
        { botname := "my", organization := "apprise",
          hostname := "zulipchat.com",
          token := "abcdefghijklmnopqrstuvwxyz012345",
          targets := ["general"] } := by
  refine ⟨?_, ?_, by decide⟩
  · intro i h
    apply pagerDutyInit_regionOf_none
    rw [h]
    decide
  · intro bn og tk tg h
    unfold zulipInit
    cases zulipBotname bn with
    | none => rfl
    | some b =>
    cases zulipOrg og with
    | none => rfl
    | some oh =>
      have ht : zulipToken (some tk) = none := by
        show (if tk.length = 32 ∧ tk.toList.all Char.isAlphanum = true then
          some tk else none) = none
        rw [if_neg]
        intro hc
        rw [h] at hc
        exact absurd hc.1 (by decide)
      simp [ht]

/-- Witness for C5 at a concrete PagerDuty init with region ca and a
concrete 31-character Zulip token. -/
theorem construction_failure_cases_witness :
    pagerDutyInit
        { apikey := some "akey", integrationkey := some "rkey",
          source := none, component := none, group := none, class_id := none,
          include_image := true, click := none, details := [],
          region_name := some "ca", severity := none } = none ∧
    zulipInit "goober" "apprise"
        (some "abcdefghijklmnopqrstuvwxyz01234") [] = none :=
  ⟨construction_failure_cases.1
      { apikey := some "akey", integrationkey := some "rkey",
        source := none, component := none, group := none, class_id := none,
        include_image := true, click := none, details := [],
        region_name := some "ca", severity := none } rfl,
    construction_failure_cases.2.1 "goober" "apprise"
      "abcdefghijklmnopqrstuvwxyz01234" [] (by decide)⟩

lemma httpOk200_eq_true (h : HttpResult) :
    httpOk200 h = true ↔ h = HttpResult.response 200 := by
  cases h with
  | response c => simp [httpOk200]
  | exception => simp [httpOk200]

lemma zulipSendLoop_posts (http : Nat → HttpResult) :
    ∀ (ts : List String) (idx : Nat) (e : Bool),
      (zulipSendLoop http idx ts e).1 = ts.map (fun t =>
        { ptype := match is_email t with
            | some _ => "private"
            | none => "stream"
          toAddr := match is_email t with
            | some full => full
            | none => t }) := by
  intro ts
  induction ts with
  | nil => intro idx e; rfl
  | cons t rest ih =>
    intro idx e
    simp only [zulipSendLoop, List.map_cons]
    rw [ih (idx + 1) (e || !httpOk200 (http idx))]

lemma zulipSendLoop_err (http : Nat → HttpResult) :
    ∀ (ts : List String) (idx : Nat) (e : Bool),
      ((zulipSendLoop http idx ts e).2 = false ↔
        (e = false ∧ ∀ j, j < ts.length → httpOk200 (http (idx + j)) = true)) := by
  intro ts
  induction ts with
  | nil =>
    intro idx e
    simp [zulipSendLoop]
  | cons t rest ih =>
    intro idx e
    simp only [zulipSendLoop]
    rw [ih (idx + 1) (e || !httpOk200 (http idx))]
    constructor
    · rintro ⟨h1, h2⟩
      rcases Bool.or_eq_false_iff.mp h1 with ⟨he, hok⟩
      refine ⟨he, ?_⟩
      intro j hj
      cases j with
      | zero =>
        simp only [Nat.add_zero]
        simpa using hok
      | succ k =>
        have hk := h2 k (by simp [List.length_cons] at hj; omega)
        rw [show idx + (k + 1) = idx + 1 + k from by omega]
        exact hk
    · rintro ⟨he, hall⟩
      have hok : httpOk200 (http idx) = true := by
        simpa using hall 0 (by simp)
      refine ⟨by simp [he, hok], ?_⟩
      intro j hj
      have hk := hall (j + 1) (by simp [List.length_cons]; omega)
      rw [show idx + 1 + j = idx + (j + 1) from by omega]
      exact hk

/-- C2: for every Zulip adapter with a non-empty target list, send makes one
POST per target in list order (a private message addressed to the full
email when the target parses as an email, a stream message otherwise), a
failing POST never stops the remaining targets, and the overall result is
true exactly when every POST came back with status 200. -/
theorem zulip_send_fanout (a : Zulip) (body title : String)
    (http : Nat → HttpResult) (h : a.targets ≠ []) :
    (zulipSend a body title http).1 = a.targets.map (fun t =>
      { ptype := match is_email t with
          | some _ => "private"
          | none => "stream"
        toAddr := match is_email t with
          | some full => full
          | none => t }) ∧
    ((zulipSend a body title http).2 = true ↔
      ∀ j, j < a.targets.length → http j = HttpResult.response 200) := by
  constructor
  · simp only [zulipSend]
    exact zulipSendLoop_posts http a.targets 0 false
  · simp only [zulipSend]
    rw [Bool.not_eq_true']
    rw [zulipSendLoop_err http a.targets 0 false]
    constructor
    · rintro ⟨-, hall⟩
      intro j hj
      have hk := hall j hj
      rw [Nat.zero_add] at hk
      exact (httpOk200_eq_true (http j)).mp hk
    · intro hall
      refine ⟨rfl, ?_⟩
      intro j hj
      rw [Nat.zero_add]
      exact (httpOk200_eq_true (http j)).mpr (hall j hj)

/-- Witness for C2 at the two-target adapter from the spec example with every
POST succeeding. -/
theorem zulip_send_fanout_witness :
    (zulipSend
        { botname := "goober", organization := "apprise",
          hostname := "zulipchat.com",
          token := "abcdefghijklmnopqrstuvwxyz012345",
          targets := ["alice@example.com", "general"] } "b" "t"
        (fun _ => HttpResult.response 200)).1 =
      [{ ptype := "private", toAddr := "alice@example.com" },
        { ptype := "stream", toAddr := "general" }] ∧
    (zulipSend
        { botname := "goober", organization := "apprise",
          hostname := "zulipchat.com",
          token := "abcdefghijklmnopqrstuvwxyz012345",
          targets := ["alice@example.com", "general"] } "b" "t"
        (fun _ => HttpResult.response 200)).2 = true := by
  have t := zulip_send_fanout
    { botname := "goober", organization := "apprise",
      hostname := "zulipchat.com",
      token := "abcdefghijklmnopqrstuvwxyz012345",
      targets := ["alice@example.com", "general"] } "b" "t"
    (fun _ => HttpResult.response 200) (by decide)
  exact ⟨t.1.trans (by decide), t.2.mpr (by decide)⟩

/-- C4: every provider treats a response as success exactly when its status
code lies in the provider specific accepted set (200, 201 and 202 for
PagerDuty, 200 alone for Kodi/XBMC and for Zulip), and any other status code
or a transport-level requests exception makes send report failure; the send
functions are total, so no exception escapes. -/
theorem sends_accept_status_codes (pa : PagerDuty) (x : XBMC) (z : Zulip)
    (body title : String) (nt : NotifyType) (img : Option String)
    (hz : z.targets ≠ []) (c : Nat) :
    ((pagerDutySend pa body title nt (HttpResult.response c)).2 = true ↔
      (c = 200 ∨ c = 201 ∨ c = 202)) ∧
    (pagerDutySend pa body title nt HttpResult.exception).2 = false ∧
    ((xbmcSend x body title nt img (HttpResult.response c)).2 = true ↔
      c = 200) ∧
    (xbmcSend x body title nt img HttpResult.exception).2 = false ∧
    ((zulipSend z body title (fun _ => HttpResult.response c)).2 = true ↔
      c = 200) ∧
    (zulipSend z body title (fun _ => HttpResult.exception)).2 = false := by
  obtain ⟨t0, rest⟩ : ∃ t0 rest, z.targets = t0 :: rest := by
    cases hzt : z.targets with
    | nil => exact absurd hzt hz
    | cons t0 rest => exact ⟨t0, rest, rfl⟩
  obtain ⟨rest, hzt⟩ := rest
  refine ⟨?_, rfl, ?_, rfl, ?_, ?_⟩
  · by_cases hc : c = 200 ∨ c = 201 ∨ c = 202 <;>
      simp [pagerDutySend, requests_codes_ok, requests_codes_created,
        requests_codes_accepted, hc]
  · by_cases hc : c = 200 <;> simp [xbmcSend, requests_codes_ok, hc]
  · simp only [zulipSend]
    rw [Bool.not_eq_true']
    rw [zulipSendLoop_err (fun _ => HttpResult.response c) z.targets 0 false]
    constructor
    · rintro ⟨-, hall⟩
      have hk := hall 0 (by rw [hzt]; simp)
      simpa [httpOk200] using hk
    · intro hc
      subst hc
      exact ⟨rfl, fun j hj => by simp [httpOk200]⟩
  · simp only [zulipSend]
    have herr := zulipSendLoop_err (fun _ => HttpResult.exception)
      z.targets 0 false
    cases hcase : (zulipSendLoop (fun _ => HttpResult.exception)
        0 z.targets false).2 with
    | true => simp
    | false =>
      exfalso
      have hall := (herr.mp hcase).2
      have h0 := hall 0 (by rw [hzt]; simp)
      simp [httpOk200] at h0

/-- Witness for C4 at concrete adapters, status code 201 and exception
outcomes. -/
theorem sends_accept_status_codes_witness :
    ((pagerDutySend
        { apikey := "akey", integration_key := "rkey", source := "Apprise",
          component := "Notification", region_name := "us", severity := none,
          click := none, class_id := none, group := none, details := [],
          include_image := true } "b" "t" NotifyType.info
        (HttpResult.response 201)).2 = true ↔
      (201 = 200 ∨ 201 = 201 ∨ 201 = 202)) ∧
    (pagerDutySend
        { apikey := "akey", integration_key := "rkey", source := "Apprise",
          component := "Notification", region_name := "us", severity := none,
          click := none, class_id := none, group := none, details := [],
          include_image := true } "b" "t" NotifyType.info
        HttpResult.exception).2 = false ∧
    ((xbmcSend
        { host := "host", port := some 8080, user := none, password := none,
          secure := false, protocol := 2, duration := 12,
          include_image := true } "b" "t" NotifyType.info none
        (HttpResult.response 201)).2 = true ↔ 201 = 200) ∧
    (xbmcSend
        { host := "host", port := some 8080, user := none, password := none,
          secure := false, protocol := 2, duration := 12,
          include_image := true } "b" "t" NotifyType.info none
        HttpResult.exception).2 = false ∧
    ((zulipSend
        { botname := "goober", organization := "apprise",
          hostname := "zulipchat.com",
          token := "abcdefghijklmnopqrstuvwxyz012345",
          targets := ["general"] } "b" "t"
        (fun _ => HttpResult.response 201)).2 = true ↔ 201 = 200) ∧
    (zulipSend
        { botname := "goober", organization := "apprise",
          hostname := "zulipchat.com",
          token := "abcdefghijklmnopqrstuvwxyz012345",
          targets := ["general"] } "b" "t"
        (fun _ => HttpResult.exception)).2 = false :=
  sends_accept_status_codes
    { apikey := "akey", integration_key := "rkey", source := "Apprise",
      component := "Notification", region_name := "us", severity := none,
      click := none, class_id := none, group := none, details := [],
      include_image := true }
    { host := "host", port := some 8080, user := none, password := none,
      secure := false, protocol := 2, duration := 12, include_image := true }
    { botname := "goober", organization := "apprise",
      hostname := "zulipchat.com",
      token := "abcdefghijklmnopqrstuvwxyz012345", targets := ["general"] }
    "b" "t" NotifyType.info none (by decide) 201

/-- C9: for all three providers a call to send leaves the adapter unchanged:
with the state threaded explicitly the post-state equals the input adapter,
the Zulip target list is the same before and after send whatever the HTTP
outcomes, and a second identical send from the post-state reproduces the
first result. -/
theorem sends_leave_adapter_unchanged (pa : PagerDuty) (x : XBMC) (z : Zulip)
    (body title : String) (nt : NotifyType) (img : Option String)
    (h : HttpResult) (http : Nat → HttpResult) :
    (pagerDutySendSt pa body title nt h).1 = pa ∧
    (xbmcSendSt x body title nt img h).1 = x ∧
    (zulipSendSt z body title http).1 = z ∧
    ((zulipSendSt z body title http).1).targets = z.targets ∧
    zulipSendSt ((zulipSendSt z body title http).1) body title http =
      zulipSendSt z body title http :=
  ⟨rfl, rfl, rfl, rfl, rfl⟩

/-- C7 counterexample: the claim says the URL rendered for an adapter parsed
from the scheme xbmcs with no explicit port contains no port; on the code
the parser fills in the xbmc default port 8080, the secure default port is
443, and the rendered URL therefore carries the explicit port 8080. -/
theorem xbmc_secure_default_port_counterexample :
    (xbmcInit (xbmcParseUrl
        (baseResultsOf "xbmcs" "host" none (fun _ => none)))).port =
      some 8080 ∧
    xbmcUrlPortPart (xbmcInit (xbmcParseUrl
        (baseResultsOf "xbmcs" "host" none (fun _ => none)))) = ":8080" ∧
    xbmcUrl (xbmcInit (xbmcParseUrl
        (baseResultsOf "xbmcs" "host" none (fun _ => none)))) =
      "xbmcs://host:8080/?image=yes&duration=12" := by
  refine ⟨by decide, by decide, ?_⟩
  decide

/-- C7 (amended): an adapter parsed from the scheme xbmcs with host and no
explicit port has secure true and protocol version 2, and the parser
assigns the xbmc default port 8080, which the serializer renders explicitly
because the secure default port is 443; an adapter parsed from the scheme
kodi with an explicit port 9090 has protocol version 6 and the rendered URL
carries the explicit port 9090. -/
theorem xbmc_scheme_parsing :
    ((xbmcInit (xbmcParseUrl
        (baseResultsOf "xbmcs" "host" none (fun _ => none)))).secure = true ∧
      (xbmcInit (xbmcParseUrl
        (baseResultsOf "xbmcs" "host" none (fun _ => none)))).protocol = 2 ∧
      (xbmcInit (xbmcParseUrl
        (baseResultsOf "xbmcs" "host" none (fun _ => none)))).port =
        some 8080 ∧
      xbmcUrl (xbmcInit (xbmcParseUrl
        (baseResultsOf "xbmcs" "host" none (fun _ => none)))) =
        "xbmcs://host:8080/?image=yes&duration=12") ∧
    ((xbmcInit (xbmcParseUrl
        (baseResultsOf "kodi" "host" (some 9090) (fun _ => none)))).secure =
        false ∧
      (xbmcInit (xbmcParseUrl
        (baseResultsOf "kodi" "host" (some 9090)
          (fun _ => none)))).protocol = 6 ∧
      xbmcUrlPortPart (xbmcInit (xbmcParseUrl
        (baseResultsOf "kodi" "host" (some 9090) (fun _ => none)))) =
        ":9090" ∧
      xbmcUrl (xbmcInit (xbmcParseUrl
        (baseResultsOf "kodi" "host" (some 9090) (fun _ => none)))) =
        "kodi://host:9090/?image=yes&duration=12") := by
  exact ⟨⟨by decide, by decide, by decide, by decide⟩,
    ⟨by decide, by decide, by decide, by decide⟩⟩

/-- C8: the claim states every stored duration is at least 1 with invalid
values defaulting to 12, as the template metadata (min 1, default 12)
declares; the init however tests whether the template minimum is positive
instead of testing the supplied duration, so the URL query duration=0 parses
to the int 0, is stored as duration 0, and the payload displaytime becomes
0, contradicting the declared invariant. -/
theorem xbmc_duration_zero_code_bug :
    (xbmcParseUrl (baseResultsOf "xbmc" "host" none
        (fun k => if k = "duration" then some "0" else none))).duration =
      some 0 ∧
    (xbmcInit (xbmcParseUrl (baseResultsOf "xbmc" "host" none
        (fun k => if k = "duration" then some "0" else none)))).duration =
      0 ∧
    (xbmcPayload20 (xbmcInit (xbmcParseUrl (baseResultsOf "xbmc" "host" none
        (fun k => if k = "duration" then some "0" else none)))) "t" "b"
        NotifyType.info none).displaytime = 0 ∧
    ¬(1 ≤ (xbmcInit (xbmcParseUrl (baseResultsOf "xbmc" "host" none
        (fun k => if k = "duration" then some "0" else none)))).duration) := by
  exact ⟨by decide, by decide, by decide, by decide⟩

lemma qsdNonempty_opt {o : Option String}
    (ho : o = none ∨ ∃ v, o = some v ∧ v ≠ "")
    (q : String → Option String) (k : String) (hq : q k = o) :
    qsdNonempty q k = o := by
  unfold qsdNonempty
  rw [hq]
  rcases ho with hc | ⟨v, hc, hv⟩
  · rw [hc]
  · rw [hc]
    show (if v = "" then none else some v) = some v
    rw [if_neg hv]

lemma qsdNonempty_truthy {o : Option String}
    (ho : o = none ∨ ∃ v, o = some v ∧ v ≠ "")
    (q : String → Option String) (k : String)
    (hq : q k = if truthyOpt o then o else none) :
    qsdNonempty q k = o := by
  unfold qsdNonempty
  rw [hq]
  rcases ho with hc | ⟨v, hc, hv⟩
  · rw [hc]
    rfl
  · rw [hc]
    simp [truthyOpt, hv]

/-- C3: the serializer is a right-inverse of the parser: whenever parsing a
PagerDuty URL and constructing an adapter succeeds, rendering that adapter
with privacy disabled, parsing the rendered URL and constructing again
yields exactly the same adapter, every field included (api key, integration
key, source, component, region, severity override, group, class, click,
custom details and the image flag). -/
theorem pagerduty_url_roundtrip (r : PdBaseUrl) (a : PagerDuty)
    (h : pagerDutyInit (pagerDutyParseUrl r) = some a) :
    pagerDutyInit (pagerDutyParseUrl (pagerDutyUrlParts a)) = some a := by
  obtain ⟨h1, h2, h3, h4, h5, h6, h7, h8, h9, -, -⟩ :=
    pagerDutyInit_eq_some h
  have hw1 : hasNonWs a.apikey = true := (validate_regex_d_some h1).2
  have hw2 : hasNonWs a.integration_key = true := (validate_regex_d_some h2).2
  have hw3 : hasNonWs a.source = true := sourceOf_some h3
  have hw4 : hasNonWs a.component = true := componentOf_some h4
  have hreg : a.region_name = "us" ∨ a.region_name = "eu" := regionOf_some h5
  have hsev := sevOf_some h6
  have hclick : a.click = none ∨ ∃ v, a.click = some v ∧ v ≠ "" := by
    rw [← h7]
    exact qsdNonempty_cases r.qsd "click"
  have hclass : a.class_id = none ∨ ∃ v, a.class_id = some v ∧ v ≠ "" := by
    rw [← h8]
    exact qsdNonempty_cases r.qsd "class"
  have hgroup : a.group = none ∨ ∃ v, a.group = some v ∧ v ≠ "" := by
    rw [← h9]
    exact qsdNonempty_cases r.qsd "group"
  have hsevShape : a.severity = none ∨
      ∃ v, a.severity = some v ∧ v ≠ "" := by
    rcases hsev with hs | hs | hs | hs | hs
    · exact Or.inl hs
    · exact Or.inr ⟨"info", hs, by decide⟩
    · exact Or.inr ⟨"warning", hs, by decide⟩
    · exact Or.inr ⟨"critical", hs, by decide⟩
    · exact Or.inr ⟨"error", hs, by decide⟩
  have e1 : (pagerDutyParseUrl (pagerDutyUrlParts a)).apikey =
      some a.apikey := rfl
  have e2 : (pagerDutyParseUrl (pagerDutyUrlParts a)).integrationkey =
      some a.integration_key := rfl
  have e3 : (pagerDutyParseUrl (pagerDutyUrlParts a)).source =
      some a.source := rfl
  have e4 : (pagerDutyParseUrl (pagerDutyUrlParts a)).component =
      some a.component := rfl
  have e5 : (pagerDutyParseUrl (pagerDutyUrlParts a)).details =
      a.details := rfl
  have e6 : (pagerDutyParseUrl (pagerDutyUrlParts a)).click = a.click :=
    qsdNonempty_opt hclick (pagerDutyUrlQsd a) "click" rfl
  have e7 : (pagerDutyParseUrl (pagerDutyUrlParts a)).class_id =
      a.class_id :=
    qsdNonempty_truthy hclass (pagerDutyUrlQsd a) "class" rfl
  have e8 : (pagerDutyParseUrl (pagerDutyUrlParts a)).group = a.group :=
    qsdNonempty_truthy hgroup (pagerDutyUrlQsd a) "group" rfl
  have e9 : (pagerDutyParseUrl (pagerDutyUrlParts a)).severity =
      a.severity :=
    qsdNonempty_truthy hsevShape (pagerDutyUrlQsd a) "severity" rfl
  have hrne : a.region_name ≠ "" := by
    rcases hreg with hr | hr <;> rw [hr] <;> decide
  have e10 : (pagerDutyParseUrl (pagerDutyUrlParts a)).region_name =
      some a.region_name := by
    show qsdNonempty (pagerDutyUrlQsd a) "region" = some a.region_name
    unfold qsdNonempty
    rw [show pagerDutyUrlQsd a "region" = some a.region_name from rfl]
    show (if a.region_name = "" then none else some a.region_name) =
      some a.region_name
    rw [if_neg hrne]
  have e11 : (pagerDutyParseUrl (pagerDutyUrlParts a)).include_image =
      a.include_image := by
    show (match pagerDutyUrlQsd a "image" with
      | none => true
      | some v => parse_bool v false) = a.include_image
    rw [show pagerDutyUrlQsd a "image" =
      some (if a.include_image then "yes" else "no") from rfl]
    cases a.include_image <;> decide
  apply pagerDutyInit_build
  · rw [e1]
    simp [validate_regex_d, hw1]
  · rw [e2]
    simp [validate_regex_d, hw2]
  · rw [e3]
    simp [sourceOf, hasNonWs_ne_empty hw3, validate_regex_d, hw3]
  · rw [e4]
    simp [componentOf, hasNonWs_ne_empty hw4, validate_regex_d, hw4]
  · rw [e10]
    rcases hreg with hr | hr <;> rw [hr] <;> decide
  · rw [e9]
    rcases hsev with hs | hs | hs | hs | hs <;> rw [hs] <;> decide
  · exact e6
  · exact e7
  · exact e8
  · exact e5
  · exact e11

/-- Witness for C3 at a concrete minimal PagerDuty URL. -/
theorem pagerduty_url_roundtrip_witness :
    pagerDutyInit (pagerDutyParseUrl
        { user := some "rkey", host := "akey", fullpath := [],
          qsd := fun _ => none, qsdPlus := [] }) =
      some
        { apikey := "akey", integration_key := "rkey", source := "Apprise",
          component := "Notification", region_name := "us", severity := none,
          click := none, class_id := none, group := none, details := [],
          include_image := true } ∧
    pagerDutyInit (pagerDutyParseUrl (pagerDutyUrlParts
        { apikey := "akey", integration_key := "rkey", source := "Apprise",
          component := "Notification", region_name := "us", severity := none,
          click := none, class_id := none, group := none, details := [],
          include_image := true })) =
      some
        { apikey := "akey", integration_key := "rkey", source := "Apprise",
          component := "Notification", region_name := "us", severity := none,
          click := none, class_id := none, group := none, details := [],
          include_image := true } :=
  ⟨by decide,
    pagerduty_url_roundtrip
      { user := some "rkey", host := "akey", fullpath := [],
        qsd := fun _ => none, qsdPlus := [] }
      { apikey := "akey", integration_key := "rkey", source := "Apprise",
        component := "Notification", region_name := "us", severity := none,
        click := none, class_id := none, group := none, details := [],
        include_image := true } (by decide)⟩
